import Mathlib

/-!
Verification of the cluster-lifecycle and object-storage utilities.

The Python sources are shallowly embedded:
* effectful status queries (`step_status` calls inside loops) are modelled by a
  finite stream (`List String`) of the states successive queries return;
* the cross-process pipe is modelled by the list of values the poller sends;
* loops that may run forever return `Option`/`Except`, `none`/`.error`
  standing for divergence or an uncaught Python exception;
* `print` calls are tracked only where a claim mentions them (as `Bool` flags).
-/

namespace PyAws

/-- The shutdown-state literal of `_poll` (cluster_manager.py line 210). -/
def shutdown_states : List String := ["COMPLETED", "CANCELLED", "FAILED", "INTERRUPTED"]

/-- The shutdown-state literal of `report_step` (cluster_manager.py line 236). -/
def report_shutdown_states : List String :=
  ["COMPLETED", "CANCELLED", "FAILED", "INTERRUPTED"]

/-- The valid callback targets of `watch_step` (cluster_manager.py lines 265-273). -/
def valid_states : List String :=
  ["PENDING", "CANCEL_PENDING", "RUNNING", "COMPLETED", "CANCELLED", "FAILED", "INTERRUPTED"]

/-- Value of `self._poll_time` as set in `__init__` (cluster_manager.py line 22). -/
def default_poll_time : Nat := 60

/--
Model of `_poll` (cluster_manager.py lines 208-219).  The stream lists the states
returned by successive `step_status` calls.  Each loop iteration queries once
for the `while` condition; when that state is non-terminal it queries a second
time and sends that second state down the pipe.  When the condition state is
terminal the loop exits and the send side is closed without sending anything.
`some trace` means the loop terminated (and closed the pipe) having sent
`trace`; `none` means the model ran out of observations.
-/
def pollRun : List String → Option (List String)
  | [] => none
  | s :: rest =>
    if s ∈ shutdown_states then some []
    else
      match rest with
      | [] => none
      | s2 :: rest2 => (pollRun rest2).map (fun l => s2 :: l)

/--
Model of `_listener` (cluster_manager.py lines 221-229).  The stream lists the values
successive `recv()` calls return.  The `while` condition receives one value
and compares it with `callback_arg`; on a mismatch the progress `print`
receives a second value (the `recv()` inside the format call).  `some n`
means the callback fired after consuming `n` received values; `none` means the
stream was exhausted while another `recv` was still pending, so the callback
never fired.
-/
def listenerRun (callback_arg : Option String) : List String → Option Nat
  | [] => none
  | s :: rest =>
    if some s = callback_arg then some 1
    else
      match rest with
      | [] => none
      | _ :: rest2 => (listenerRun callback_arg rest2).map (fun n => n + 2)

/-- Which resources `watch_step` touches on one call. -/
structure WatchOutcome where
  pollerStarted : Bool
  peeked : Bool
  rejected : Bool
  listenerStarted : Bool
deriving DecidableEq

/-- Python's `callback_arg not in valid_states` is false exactly here (a `None`
argument is not in the list). -/
def argValid : Option String → Bool
  | some a => valid_states.contains a
  | none => false

/--
Control flow of `watch_step` (cluster_manager.py lines 241-278).  The poller
process is started unconditionally first.  With no callback, one blocking
`recv` is performed, and the listener process is still started afterwards
(lines 277-278 sit outside the `if`/`else`).  With a callback, an invalid
`callback_arg` prints an error and returns before the listener is started.
-/
def watch_step (hasCallback : Bool) (callback_arg : Option String) : WatchOutcome :=
  if !hasCallback then
    { pollerStarted := true, peeked := true, rejected := false, listenerStarted := true }
  else if argValid callback_arg then
    { pollerStarted := true, peeked := false, rejected := false, listenerStarted := true }
  else
    { pollerStarted := true, peeked := false, rejected := true, listenerStarted := false }

/--
Model of `launch_cluster` (cluster_manager.py lines 89-123), abstracted over the
remote response: the input is `response["JobFlowId"]` when present.  Returns
the id together with a flag recording whether the missing-key error message
was printed.
-/
def launch_cluster (response_job_flow_id : Option String) : String × Bool :=
  match response_job_flow_id with
  | some i => (i, false)
  | none => ("", true)

/-- Python dict append `res[key].append(v)`: `none` models the `KeyError`
raised when `key` is absent. -/
def dict_append (res : List (String × List String)) (key v : String) :
    Option (List (String × List String)) :=
  match res with
  | [] => none
  | (k, vs) :: rest =>
    if k = key then some ((k, vs ++ [v]) :: rest)
    else (dict_append rest key v).map (fun r => (k, vs) :: r)

/--
Model of `launch_cluster_with_jobs` (cluster_manager.py lines 125-201), abstracted over
the two remote responses: `job_flow_id` is `cluster_response["JobFlowId"]`
when present, `step_ids` the ids in `step_response["Steps"]`.  On a missing
id the handler prints and leaves `res` empty and `cluster_id = ""`, after
which `res[cluster_id].append(...)` raises `KeyError` (`none`) for every
listed step.
-/
def launch_cluster_with_jobs (job_flow_id : Option String) (step_ids : List String) :
    Option (List (String × List String)) :=
  let cluster_id : String := match job_flow_id with | some i => i | none => ""
  let res : List (String × List String) :=
    match job_flow_id with | some i => [(i, [])] | none => []
  step_ids.foldl (fun acc sid => acc.bind (fun r => dict_append r cluster_id sid)) (some res)

/--
Model of `report_step` (cluster_manager.py lines 231-239).  Each `while`-condition
check consumes one observation; on the first terminal observation the loop
exits and the `return` performs one further `step_status` query, whose state
is returned.
-/
def reportRun : List String → Option String
  | [] => none
  | s :: rest => if s ∈ report_shutdown_states then rest.head? else reportRun rest

/-- Interleaves condition-read/body-read pairs into the observation stream
consumed by `pollRun`. -/
def pairStream : List (String × String) → List String
  | [] => []
  | (a, b) :: r => a :: b :: pairStream r

/-- Uncaught Python exceptions the embedded code can raise. -/
inductive PyError where
  | attrError
  | indexError
  | keyError
  | clientError (code : String)
deriving DecidableEq

/-- The characters of the literal `"s3://"`. -/
def s3_scheme : List Char := "s3://".toList

/--
The regex `s3:\/\/.*?\/` applied after the anchored `s3://`: the non-greedy
`.*?` extends to the first `'/'`; `.` never matches a newline, so a newline
before any `'/'` (like a missing `'/'`) makes the whole match fail.
Returns the consumed characters, including the final `'/'`.
-/
def takeThroughSlash : List Char → Option (List Char)
  | [] => none
  | c :: rest =>
    if c = '/' then some ['/']
    else if c = '\n' then none
    else (takeThroughSlash rest).map (fun l => c :: l)

/-- Python's `re.match(r"s3:\/\/.*?\/", path)`, returning `.group()` on success. -/
def matchS3 (path : List Char) : Option (List Char) :=
  if s3_scheme.isPrefixOf path then
    (takeThroughSlash (path.drop 5)).map (fun l => s3_scheme ++ l)
  else none

/--
Fuelled scanner behind `pySplit`.  At each position, if the separator is a
(non-empty) prefix of the remaining input, a piece boundary is emitted and the
separator is skipped; otherwise one character is moved into the current piece.
The fuel only needs to be at least the input length.
-/
def pySplitF (sep : List Char) : Nat → List Char → List (List Char)
  | _, [] => [[]]
  | 0, s => [s]
  | fuel + 1, c :: rest =>
    if sep ≠ [] ∧ sep.isPrefixOf (c :: rest) then
      [] :: pySplitF sep fuel ((c :: rest).drop sep.length)
    else
      match pySplitF sep fuel rest with
      | [] => [[c]]
      | h :: t => (c :: h) :: t

/-- Python `s.split(sep)` for a non-empty separator string: splits at every
non-overlapping occurrence, scanning left to right. -/
def pySplit (sep s : List Char) : List (List Char) := pySplitF sep s.length s

/-- Python `s.strip("/")`: removes leading and trailing `'/'` characters. -/
def pyStripSlash (l : List Char) : List Char :=
  ((l.dropWhile (fun c => c == '/')).reverse.dropWhile (fun c => c == '/')).reverse

/--
The bucket/key extraction shared by `parse_path` (s3_manager.py lines
148-157) and the inline code of `step_status` (cluster_manager.py lines
306-308):
`regex = re.match(r"s3:\/\/.*?\/", path).group()` (a failed match raises
`AttributeError` on `.group()`), `bucket = regex.split("s3://")[1].strip("/")`
and `key = path.split(regex)[1]` (an out-of-range `[1]` raises `IndexError`).
-/
def parsePathE (path : List Char) : Except PyError (List Char × List Char) :=
  match matchS3 path with
  | none => .error .attrError
  | some rgx =>
    match (pySplit s3_scheme rgx).get? 1 with
    | none => .error .indexError
    | some bpart =>
      match (pySplit rgx path).get? 1 with
      | none => .error .indexError
      | some kpart => .ok (pyStripSlash bpart, kpart)

/-- Model of `parse_path` (s3_manager.py lines 148-157): the returned dict's
`bucket` and `key` entries (`path` merely echoes the input); `none` models
the uncaught exception on a malformed path. -/
def parse_path (path : String) : Option (String × String) :=
  match parsePathE path.toList with
  | .ok (b, k) => some (String.mk b, String.mk k)
  | .error _ => none

/-- The characters of the literal `"stderr.gz"`. -/
def stderr_gz : List Char := "stderr.gz".toList

/-- The key suffixing of `step_status` (cluster_manager.py lines 309-310):
`if not logfile_key.endswith("stderr.gz"): logfile_key += "stderr.gz"`. -/
def resolve_log_key (k : List Char) : List Char :=
  if stderr_gz.isSuffixOf k then k else k ++ stderr_gz

/-- The optional `FailureDetails` dict of a raw step description; `none`
fields model absent `"Reason"` / `"LogFile"` keys. -/
structure FailureDetails where
  reason : Option String
  logfile : Option String
deriving DecidableEq

/-- The fields of `describe_step`'s response that `step_status` reads. -/
structure StepDescription where
  name : String
  config_args : List String
  action_on_failure : String
  state : String
  failure_details : Option FailureDetails
deriving DecidableEq

/-- Outcome of the single `get_object` call: the object's payload, the
`NoSuchKey` client error, or any other `ClientError`. -/
inductive FetchResult where
  | found (data : String)
  | noSuchKey
  | otherError (code : String)
deriving DecidableEq

/-- The simplified status dict built by `step_status`; `failure_details`
holds the `(reason, logfile)` pair when present. -/
structure StatusOutput where
  name : String
  parameters : List String
  failure_mode : String
  state : String
  failure_details : Option (String × String)
deriving DecidableEq

/-- The `(output, err)` pair returned by `step_status`, plus whether the
not-found informational notice was printed. -/
structure StatusResult where
  output : StatusOutput
  err : Option String
  notice : Bool
deriving DecidableEq

/--
Model of `step_status` (cluster_manager.py lines 280-324).  `fetch` gives the object
store's answer for a bucket/key pair and `dec` abstracts
`decompress(...).decode("unicode-escape")` on the fetched payload (its own
failure modes are outside the embedded claims).  The reason lookup is guarded
by `try`/`except KeyError` with default `"Unknown"`; the `LogFile` lookup is
not guarded, so its absence raises `KeyError`.  A `NoSuchKey` from the store
is caught and only prints the notice; any other client error propagates.
-/
def step_status (resp : StepDescription)
    (fetch : List Char → List Char → FetchResult)
    (dec : String → String) : Except PyError StatusResult :=
  match resp.failure_details with
  | none =>
    .ok ⟨⟨resp.name, resp.config_args, resp.action_on_failure, resp.state, none⟩, none, false⟩
  | some fd =>
    let reason := fd.reason.getD "Unknown"
    match fd.logfile with
    | none => .error .keyError
    | some lf =>
      match parsePathE lf.toList with
      | .error e => .error e
      | .ok (bucket, key0) =>
        let key := resolve_log_key key0
        let out : StatusOutput :=
          ⟨resp.name, resp.config_args, resp.action_on_failure, resp.state, some (reason, lf)⟩
        match fetch bucket key with
        | .found data => .ok ⟨out, some (dec data), false⟩
        | .noSuchKey => .ok ⟨out, none, true⟩
        | .otherError c => .error (.clientError c)

/-! ### Shared helper lemmas -/

theorem isSuffixOf_append_self (k l : List Char) : l.isSuffixOf (k ++ l) = true := by
  simp

theorem pySplitF_fuel (sep : List Char) (f1 : Nat) :
    ∀ (f2 : Nat) (s : List Char), s.length ≤ f1 → s.length ≤ f2 →
    pySplitF sep f1 s = pySplitF sep f2 s := by
  induction f1 with
  | zero =>
    intro f2 s h1 _
    have hs : s = [] := List.eq_nil_of_length_eq_zero (Nat.le_zero.mp h1)
    subst hs
    cases f2 <;> rfl
  | succ g ih =>
    intro f2 s h1 h2
    cases s with
    | nil => cases f2 <;> rfl
    | cons c rest =>
      cases f2 with
      | zero => simp at h2
      | succ g2 =>
        by_cases hcond : sep ≠ [] ∧ sep.isPrefixOf (c :: rest)
        · have hsep1 : 1 ≤ sep.length := List.length_pos.mpr hcond.1
          have hd1 : ((c :: rest).drop sep.length).length ≤ g := by
            simp only [List.length_drop, List.length_cons]
            simp only [List.length_cons] at h1
            omega
          have hd2 : ((c :: rest).drop sep.length).length ≤ g2 := by
            simp only [List.length_drop, List.length_cons]
            simp only [List.length_cons] at h2
            omega
          simp only [pySplitF, if_pos hcond]
          rw [ih g2 _ hd1 hd2]
        · have hr1 : rest.length ≤ g := by
            simp only [List.length_cons] at h1
            omega
          have hr2 : rest.length ≤ g2 := by
            simp only [List.length_cons] at h2
            omega
          simp only [pySplitF, if_neg hcond]
          rw [ih g2 rest hr1 hr2]

theorem pySplitF_no_occ (sep : List Char) (fuel : Nat) :
    ∀ s : List Char, s.length ≤ fuel → ¬ sep <:+: s → pySplitF sep fuel s = [s] := by
  induction fuel with
  | zero =>
    intro s h1 _
    have hs : s = [] := List.eq_nil_of_length_eq_zero (Nat.le_zero.mp h1)
    subst hs
    rfl
  | succ g ih =>
    intro s h1 h
    cases s with
    | nil => rfl
    | cons c rest =>
      have hcond : ¬ (sep ≠ [] ∧ sep.isPrefixOf (c :: rest)) := by
        rintro ⟨_, hpre⟩
        simp at hpre
        exact h hpre.isInfix
      have hrest : pySplitF sep g rest = [rest] := by
        refine ih rest ?_ (fun hinf => h (List.infix_cons hinf))
        simp only [List.length_cons] at h1
        omega
      simp only [pySplitF, if_neg hcond, hrest]

theorem pySplit_no_occ (sep s : List Char) (h : ¬ sep <:+: s) : pySplit sep s = [s] :=
  pySplitF_no_occ sep s.length s (Nat.le_refl _) h

theorem pySplit_append_sep (sep t : List Char) (h : sep ≠ []) :
    pySplit sep (sep ++ t) = [] :: pySplit sep t := by
  cases sep with
  | nil => exact absurd rfl h
  | cons c cs =>
    unfold pySplit
    have hlen : ((c :: cs) ++ t).length = (cs ++ t).length + 1 := by simp
    rw [hlen, List.cons_append]
    have hcond : (c :: cs) ≠ [] ∧ (c :: cs).isPrefixOf (c :: (cs ++ t)) := by
      refine ⟨by simp, ?_⟩
      simp
    simp only [pySplitF, if_pos hcond]
    have hdrop : (c :: (cs ++ t)).drop (c :: cs).length = t := by
      rw [show c :: (cs ++ t) = (c :: cs) ++ t from rfl, List.drop_left]
    rw [hdrop]
    congr 1
    exact pySplitF_fuel (c :: cs) (cs ++ t).length t.length t (by simp) (Nat.le_refl _)

theorem no_scheme_occ (b : List Char) (hb : '/' ∉ b) : ¬ s3_scheme <:+: (b ++ ['/']) := by
  rintro ⟨u, v, huv⟩
  have hc : ((u ++ s3_scheme) ++ v).count '/' = (b ++ ['/']).count '/' := by rw [huv]
  rw [List.count_append, List.count_append, List.count_append] at hc
  have h2 : s3_scheme.count '/' = 2 := rfl
  have h1 : (['/'] : List Char).count '/' = 1 := rfl
  have h0 : b.count '/' = 0 := List.count_eq_zero.mpr hb
  omega

theorem takeThroughSlash_clean (b k : List Char)
    (hb : ∀ c ∈ b, c ≠ '/' ∧ c ≠ '\n') :
    takeThroughSlash (b ++ '/' :: k) = some (b ++ ['/']) := by
  induction b with
  | nil => rfl
  | cons c bs ih =>
    have hc := hb c (List.mem_cons_self _ _)
    have hrec := ih (fun x hx => hb x (List.mem_cons_of_mem _ hx))
    simp only [List.cons_append, takeThroughSlash, if_neg hc.1, if_neg hc.2]
    simp [hrec]

theorem dropWhile_slash_self (l : List Char) (h : '/' ∉ l) :
    l.dropWhile (fun c => c == '/') = l := by
  cases l with
  | nil => rfl
  | cons c t =>
    have hc : ¬ (c == '/') = true := by
      simp only [beq_iff_eq]
      intro hEq
      exact h (by rw [← hEq]; exact List.mem_cons_self _ _)
    simp [List.dropWhile_cons, hc]

theorem pyStripSlash_append_slash (b : List Char) (hb : '/' ∉ b) :
    pyStripSlash (b ++ ['/']) = b := by
  cases b with
  | nil => rfl
  | cons c bs =>
    have hsplit : '/' ≠ c ∧ '/' ∉ bs := by simpa [not_or] using hb
    have hcfalse : ¬ (c == '/') = true := by
      simp only [beq_iff_eq]
      exact fun hEq => hsplit.1 hEq.symm
    unfold pyStripSlash
    rw [List.cons_append, List.dropWhile_cons, if_neg hcfalse]
    have h1 : (c :: (bs ++ ['/'])).reverse = '/' :: (c :: bs).reverse := by
      rw [show c :: (bs ++ ['/']) = (c :: bs) ++ ['/'] from by simp, List.reverse_append]
      rfl
    rw [h1, List.dropWhile_cons, if_pos (by rfl)]
    rw [dropWhile_slash_self _ (by simp only [List.mem_reverse]; exact hb)]
    exact List.reverse_reverse _

theorem parsePathE_wellformed (b k : List Char)
    (hb : ∀ c ∈ b, c ≠ '/' ∧ c ≠ '\n')
    (hk : ¬ (s3_scheme ++ b ++ ['/']) <:+: k) :
    parsePathE (s3_scheme ++ b ++ '/' :: k) = .ok (b, k) := by
  have hslash : '/' ∉ b := fun hmem => (hb _ hmem).1 rfl
  have hk2 : ¬ (s3_scheme ++ (b ++ ['/'])) <:+: k := by
    rw [← List.append_assoc]
    exact hk
  have hmatch : matchS3 (s3_scheme ++ b ++ '/' :: k) = some (s3_scheme ++ (b ++ ['/'])) := by
    unfold matchS3
    rw [if_pos ?hpre]
    case hpre => simp
    have hdrop : (s3_scheme ++ (b ++ '/' :: k)).drop 5 = b ++ '/' :: k :=
      List.drop_left s3_scheme _
    rw [List.append_assoc, hdrop, takeThroughSlash_clean b k hb]
    rfl
  have hbucket : pySplit s3_scheme (s3_scheme ++ (b ++ ['/'])) = [[], b ++ ['/']] := by
    rw [pySplit_append_sep _ _ (by decide),
      pySplit_no_occ _ _ (no_scheme_occ b hslash)]
  have hpath : s3_scheme ++ b ++ '/' :: k = (s3_scheme ++ (b ++ ['/'])) ++ k := by
    simp [List.append_assoc]
  have hkey : pySplit (s3_scheme ++ (b ++ ['/'])) (s3_scheme ++ b ++ '/' :: k) = [[], k] := by
    rw [hpath, pySplit_append_sep _ _ (by simp), pySplit_no_occ _ _ hk2]
  unfold parsePathE
  rw [hmatch]
  simp only [hbucket, hkey, List.get?, pyStripSlash_append_slash b hslash]

/-- Claim C6, counterexample: a well-formed key may itself contain the
matched prefix `s3://b/`; `str.split` then cuts at the second occurrence as
well and `[1]` returns the empty middle piece, so the key (and hence the
round trip) is lost. -/
theorem parse_path_repeated_sep_cex :
    parse_path "s3://b/s3://b/x" = some ("b", "") ∧
    parse_path "s3://b/s3://b/x" ≠ some ("b", "s3://b/x") := by
  constructor
  · rfl
  · decide

/-- Claim C6, amended: for a path `s3://bucket/key` whose bucket contains no
slash (nor newline) and whose key does not itself contain the occurrence
`s3://bucket/` again, `parse_path` returns exactly that bucket and key —
so `s3://` ++ bucket ++ `/` ++ key round-trips to the original path. -/
theorem parse_path_roundtrip (b k : String)
    (hb : ∀ c ∈ b.toList, c ≠ '/' ∧ c ≠ '\n')
    (hk : ¬ ("s3://" ++ b ++ "/").toList <:+: k.toList) :
    parse_path ("s3://" ++ b ++ "/" ++ k) = some (b, k) := by
  have hdata : ∀ x y : String, (x ++ y).data = x.data ++ y.data := fun x y => rfl
  have hk' : ¬ (s3_scheme ++ b.toList ++ ['/']) <:+: k.toList := by
    simp only [String.toList, hdata] at hk
    exact hk
  have hlist : ("s3://" ++ b ++ "/" ++ k).toList = s3_scheme ++ b.toList ++ '/' :: k.toList := by
    simp only [String.toList, hdata]
    simp [s3_scheme, List.append_assoc]
  unfold parse_path
  rw [hlist, parsePathE_wellformed b.toList k.toList hb hk']
  rfl

/-- Claim C6, witness: the test vector of `s3_manager_test.py`. -/
theorem parse_path_roundtrip_witness :
    parse_path "s3://some-bucket/a/b/c" = some ("some-bucket", "a/b/c") :=
  parse_path_roundtrip "some-bucket" "a/b/c" (by decide) (by decide)

/-- Claim C1, counterexample: at a stream whose very first observation is
`COMPLETED`, `_poll` closes the pipe having published nothing — the claimed
trace `[COMPLETED]` is not produced. -/
theorem poll_terminal_not_published_cex :
    pollRun ["COMPLETED"] = some [] ∧ pollRun ["COMPLETED"] ≠ some ["COMPLETED"] := by
  decide

/-- Claim C1, amended: on each non-terminal condition observation `_poll`
performs a second status query and publishes that second query's state; on
the first terminal condition observation it closes the pipe's send side
without publishing the terminal state. -/
theorem poll_run_publishes_and_closes (ps : List (String × String)) (t : String)
    (rest : List String) :
    (∀ p ∈ ps, p.1 ∉ shutdown_states) → t ∈ shutdown_states →
    pollRun (pairStream ps ++ t :: rest) = some (ps.map Prod.snd) := by
  induction ps with
  | nil =>
    intro _ ht
    unfold pollRun
    simp [pairStream, ht]
  | cons p ps ih =>
    intro hps ht
    obtain ⟨a, b⟩ := p
    have ha : a ∉ shutdown_states := hps (a, b) (List.mem_cons_self _ _)
    simp [pairStream, pollRun, ha, ih (fun q hq => hps q (List.mem_cons_of_mem _ hq)) ht]

/-- Claim C1, witness for the amended statement. -/
theorem poll_run_publishes_and_closes_witness :
    pollRun ["RUNNING", "RUNNING", "COMPLETED"] = some ["RUNNING"] :=
  poll_run_publishes_and_closes [("RUNNING", "RUNNING")] "COMPLETED" []
    (by decide) (by decide)

/-- Claim C2: with published sequence `[RUNNING, COMPLETED]` and target
`COMPLETED`, the listener consumes `COMPLETED` inside the progress print and
the callback never fires; with `[RUNNING, RUNNING, COMPLETED]` it fires after
the third received value, matching the spec's example. -/
theorem listener_even_position_miss :
    listenerRun (some "COMPLETED") ["RUNNING", "COMPLETED"] = none ∧
    listenerRun (some "COMPLETED") ["RUNNING", "RUNNING", "COMPLETED"] = some 3 := by
  decide

/-- Claim C3, counterexample: target `"BOGUS"` is rejected, yet the poller
process was already started before the validation ran. -/
theorem watch_step_invalid_target_cex :
    (watch_step true (some "BOGUS")).rejected = true ∧
    (watch_step true (some "BOGUS")).pollerStarted = true := by
  decide

/-- Claim C3, amended: an invalid target is rejected with an error message
and no listener process is started, but the poller process (and the pipe
created in the constructor) already exists when the validation runs. -/
theorem watch_step_invalid_target (a : Option String) (h : argValid a = false) :
    watch_step true a =
      { pollerStarted := true, peeked := false, rejected := true, listenerStarted := false } := by
  simp [watch_step, h]

/-- Claim C3, witness for the amended statement. -/
theorem watch_step_invalid_target_witness :
    watch_step true (some "BOGUS") =
      { pollerStarted := true, peeked := false, rejected := true, listenerStarted := false } :=
  watch_step_invalid_target (some "BOGUS") (by decide)

/-- Claim C4: with no callback supplied, `watch_step` performs the single
blocking read but then still starts a listener process (the `listener` lines
sit outside the `if`/`else`), contrary to the claim. -/
theorem watch_step_no_callback_starts_listener :
    (watch_step false none).peeked = true ∧
    (watch_step false none).listenerStarted = true := by
  decide

/-- Claim C8: `launch_cluster` returns the id, or `""` plus a printed error,
and never raises; `launch_cluster_with_jobs` raises an uncaught `KeyError`
(`none`) when the id is absent and the listed steps are non-empty. -/
theorem launch_missing_id_behavior :
    launch_cluster_with_jobs none ["s-1"] = none ∧
    launch_cluster_with_jobs (some "j-1") ["s-1", "s-2"] = some [("j-1", ["s-1", "s-2"])] ∧
    launch_cluster none = ("", true) ∧
    launch_cluster (some "j-1") = ("j-1", false) := by
  decide

/-- Claim C9: `report_step` shares the poller's terminal-state table and the
60-second default interval, and for a stream that stays non-terminal until a
terminal state is observed (the terminal state persisting for the one
follow-up query the `return` performs) it returns that terminal state. -/
theorem report_step_returns_terminal :
    report_shutdown_states = shutdown_states ∧ default_poll_time = 60 ∧
    ∀ (pre : List String) (t : String) (rest : List String),
      (∀ s ∈ pre, s ∉ report_shutdown_states) → t ∈ report_shutdown_states →
      reportRun (pre ++ t :: t :: rest) = some t := by
  refine ⟨rfl, rfl, ?_⟩
  intro pre t rest
  induction pre with
  | nil =>
    intro _ ht
    simp [reportRun, ht]
  | cons s pre ih =>
    intro hpre ht
    have hs : s ∉ report_shutdown_states := hpre s (List.mem_cons_self _ _)
    simp only [List.cons_append, reportRun, if_neg hs]
    exact ih (fun q hq => hpre q (List.mem_cons_of_mem _ hq)) ht

/-- Claim C9, witness. -/
theorem report_step_returns_terminal_witness :
    reportRun ["PENDING", "RUNNING", "COMPLETED", "COMPLETED"] = some "COMPLETED" :=
  report_step_returns_terminal.2.2 ["PENDING", "RUNNING"] "COMPLETED" []
    (by decide) (by decide)

/-- Claim C7: the resolved log key always ends with `stderr.gz`, a key that
already ends with it is left unchanged, and the suffixing is idempotent. -/
theorem resolve_log_key_spec (k : List Char) :
    stderr_gz.isSuffixOf (resolve_log_key k) = true ∧
    (stderr_gz.isSuffixOf k = true → resolve_log_key k = k) ∧
    resolve_log_key (resolve_log_key k) = resolve_log_key k := by
  by_cases h : stderr_gz.isSuffixOf k
  · simp [resolve_log_key, h]
  · refine ⟨?_, fun habs => absurd habs h, ?_⟩
    · simp [resolve_log_key, h, isSuffixOf_append_self]
    · simp [resolve_log_key, h, isSuffixOf_append_self]

/-- Claim C7, witness: a key with no filename gains the suffix, a key already
carrying it is unchanged. -/
theorem resolve_log_key_witness :
    resolve_log_key ("x/stderr.gz".toList) = "x/stderr.gz".toList ∧
    resolve_log_key ("a/b/".toList) = "a/b/stderr.gz".toList :=
  ⟨(resolve_log_key_spec ("x/stderr.gz".toList)).2.1 (by decide), by decide⟩

/-- Claim C5: when the raw description carries failure details, a `NoSuchKey`
answer from the object store yields the status record (failure details
included) with a `none` diagnostic and only the printed notice, while any
other client error propagates as an error to the caller. -/
theorem step_status_missing_log_object (n m st lf : String) (a : List String)
    (r : Option String) (b k : List Char)
    (fetch : List Char → List Char → FetchResult) (dec : String → String)
    (hp : parsePathE lf.toList = .ok (b, k)) :
    (fetch b (resolve_log_key k) = .noSuchKey →
      step_status ⟨n, a, m, st, some ⟨r, some lf⟩⟩ fetch dec =
        .ok ⟨⟨n, a, m, st, some (r.getD "Unknown", lf)⟩, none, true⟩) ∧
    ∀ c, fetch b (resolve_log_key k) = .otherError c →
      step_status ⟨n, a, m, st, some ⟨r, some lf⟩⟩ fetch dec =
        .error (.clientError c) := by
  have hp' : parsePathE lf.data = Except.ok (b, k) := hp
  constructor
  · intro h
    simp [step_status, hp', h]
  · intro c h
    simp [step_status, hp', h]

/-- Claim C5, witness. -/
theorem step_status_missing_log_object_witness :
    step_status ⟨"n", [], "TERMINATE_CLUSTER", "FAILED",
        some ⟨some "oom", some "s3://b/logs/"⟩⟩
      (fun _ _ => FetchResult.noSuchKey) id =
      .ok ⟨⟨"n", [], "TERMINATE_CLUSTER", "FAILED", some ("oom", "s3://b/logs/")⟩,
        none, true⟩ :=
  (step_status_missing_log_object "n" "TERMINATE_CLUSTER" "FAILED" "s3://b/logs/" []
      (some "oom") ("b".toList) ("logs/".toList) (fun _ _ => FetchResult.noSuchKey) id
      rfl).1 rfl

/-- Claim C10: a `FailureDetails` record with no `Reason` key yields the
reason `"Unknown"`, but one with no `LogFile` key makes `step_status` raise
an uncaught `KeyError` — only the reason lookup is guarded. -/
theorem step_status_reason_guard (n m st : String) (a : List String) (r : Option String)
    (fetch : List Char → List Char → FetchResult) (dec : String → String) :
    step_status ⟨n, a, m, st, some ⟨r, none⟩⟩ fetch dec = .error .keyError ∧
    ∀ (lf : String) (b k : List Char), parsePathE lf.toList = .ok (b, k) →
      fetch b (resolve_log_key k) = .noSuchKey →
      step_status ⟨n, a, m, st, some ⟨none, some lf⟩⟩ fetch dec =
        .ok ⟨⟨n, a, m, st, some ("Unknown", lf)⟩, none, true⟩ := by
  constructor
  · simp [step_status]
  · intro lf b k hp h
    have hp' : parsePathE lf.data = Except.ok (b, k) := hp
    simp [step_status, hp', h]

/-- Claim C10, witness. -/
theorem step_status_reason_guard_witness :
    step_status ⟨"n", [], "m", "FAILED", some ⟨some "boom", none⟩⟩
      (fun _ _ => FetchResult.noSuchKey) id = .error .keyError ∧
    step_status ⟨"n", [], "m", "FAILED", some ⟨none, some "s3://b/x"⟩⟩
      (fun _ _ => FetchResult.noSuchKey) id =
      .ok ⟨⟨"n", [], "m", "FAILED", some ("Unknown", "s3://b/x")⟩, none, true⟩ :=
  ⟨(step_status_reason_guard "n" "m" "FAILED" [] (some "boom")
      (fun _ _ => FetchResult.noSuchKey) id).1,
   (step_status_reason_guard "n" "m" "FAILED" [] none
      (fun _ _ => FetchResult.noSuchKey) id).2 "s3://b/x" ("b".toList) ("x".toList)
      rfl rfl⟩

end PyAws
